import Mathlib

/-!
Verification of the per-user conversational agent (Cloudflare Durable Object
actor + D1 + Workflows).  The development shallowly embeds three parts of the
repository:

* the memory / context-builder component (`MemoryManager` in
  `src/agent/memory.ts`; the implementation file is absent from the source
  drop, only its unit tests are, so these definitions are modelled from the
  specification and cross-checked against the pinned test values);
* the reminder step-workflow (`TaskWorkflow.handleReminderWorkflow`);
* the actor connection registry (`PersonalAssistant`: WebSocket upgrade,
  in-handler session recovery, close/error handlers and `rebuildSessions`)
  and the reminder-enqueue logic of `PersonalAssistant.handleCreateTask`.

Timestamps are embedded as `Int` (JS numbers holding Unix seconds or
milliseconds), strings as Lean `String`, and JavaScript truthiness of the
relevant values (`0`, the empty string, `null`/`undefined`) is made explicit
through `jsTruthyInt` / `jsTruthyStr`.
-/

namespace AgentCloud

/-- JS truthiness for an optional number: `undefined`/`null` and `0` are falsy. -/
def jsTruthyInt : Option Int → Option Int
  | some d => if d = 0 then none else some d
  | none => none

/-- JS truthiness for an optional string: `undefined`/`null` and `""` are falsy. -/
def jsTruthyStr : Option String → Option String
  | some s => if s = "" then none else some s
  | none => none

/-- Message role, from the `Message` interface in `src/types/env.d.ts`. -/
inductive Role where
  | user
  | assistant
  | system
  deriving DecidableEq, Repr

/-- A conversation message (`Message` in `src/types/env.d.ts`); the optional
metadata map is not carried because no verified operation inspects it. -/
structure Message where
  id : String
  role : Role
  content : String
  timestamp : Int
  deriving DecidableEq, Repr

/-- Options accepted by the context builder.  Modelled from the spec:
`maxTokens` (default 4000), `maxMessages` (default 50), `systemPrompt`
(default none) — `MemoryOptions` of `src/agent/memory.ts`, whose
implementation is not part of the source drop. -/
structure MemoryOptions where
  maxTokens : Option Nat := none
  maxMessages : Option Nat := none
  systemPrompt : Option String := none
  deriving DecidableEq, Repr

/-- The derived conversation context (`ConversationContext`). -/
structure ConversationContext where
  messages : List Message
  systemPrompt : Option String
  totalTokens : Nat
  truncated : Bool
  deriving DecidableEq, Repr

/-- Modelled from the spec: the token estimator of `src/agent/memory.ts`
(absent from the source drop), `estimate(text) = ceiling(len(text)/4)`,
zero for empty text; in `Nat` arithmetic the ceiling is `(len + 3) / 4`.
The unit tests pin `estimate("A"*400) = 100`, `estimate("ABC") = 1` and
`estimate("") = 0`, all matched by this definition. -/
def estimateTokens (text : String) : Nat :=
  (text.length + 3) / 4

/-- Token cost of the optional system prompt (0 if absent), the initial
budget consumption of the context builder. -/
def systemPromptTokens (options : MemoryOptions) : Nat :=
  match options.systemPrompt with
  | some sp => estimateTokens sp
  | none => 0

/-- The most recent `n` elements of a list, original order preserved. -/
def lastN (n : Nat) (l : List Message) : List Message :=
  l.drop (l.length - n)

/-- Modelled from the spec: the token-budget walk of the context builder of
`src/agent/memory.ts` (absent from the source drop).  The input list is the
kept messages newest first; each message is accepted while the running total
would not exceed `maxT`, and the walk stops at the first overflowing
message. -/
def takeNewest (maxT : Nat) (current : Nat) : List Message → List Message
  | [] => []
  | m :: rest =>
    if maxT < current + estimateTokens m.content then []
    else m :: takeNewest maxT (current + estimateTokens m.content) rest

/-- The accepted messages, newest first, of a context-builder run. -/
def keptNewestFirst (history : List Message) (options : MemoryOptions) : List Message :=
  takeNewest (options.maxTokens.getD 4000) (systemPromptTokens options)
    (lastN (options.maxMessages.getD 50) history).reverse

/-- Modelled from the spec: `MemoryManager.buildContext` of
`src/agent/memory.ts` (absent from the source drop).  Steps: keep the most
recent `maxMessages` messages; charge the system prompt to the budget; walk
the kept messages newest to oldest accepting while the running token total
stays within `maxTokens`; output the accepted messages oldest first;
`truncated` is true iff the count cap dropped messages or the token walk
stopped early.  `totalTokens` is the system prompt cost plus the accepted
messages' costs (the unit tests pin exactly these totals). -/
def buildContext (history : List Message) (options : MemoryOptions) : ConversationContext :=
  { messages := (keptNewestFirst history options).reverse
    systemPrompt := options.systemPrompt
    totalTokens := systemPromptTokens options +
      ((keptNewestFirst history options).map (fun m => estimateTokens m.content)).sum
    truncated :=
      decide (options.maxMessages.getD 50 < history.length) ||
      decide ((keptNewestFirst history options).length <
        (lastN (options.maxMessages.getD 50) history).length) }

/-- Content of the synthesized retrieval message: the literal template
`"Relevant context from knowledge base:\n"` followed by the snippets joined
by blank lines. -/
def ragContextContent (snippets : List String) : String :=
  "Relevant context from knowledge base:\n" ++ String.intercalate "\n\n" snippets

/-- Modelled from the spec: `MemoryManager.prepareRAGContext` of
`src/agent/memory.ts` (absent from the source drop).  With no retrieved
snippets it delegates directly to `buildContext`; otherwise the conversation
is built under 70% of `maxTokens` and one system-role message tagged
`rag-context` is prepended. -/
def prepareRAGContext (history : List Message) (retrieved : List String)
    (options : MemoryOptions) : ConversationContext :=
  match retrieved with
  | [] => buildContext history options
  | _ :: _ =>
    let conversationTokens := options.maxTokens.getD 4000 * 7 / 10
    let base := buildContext history { options with maxTokens := some conversationTokens }
    let ragMessage : Message :=
      { id := "rag-context", role := Role.system,
        content := ragContextContent retrieved, timestamp := 0 }
    { messages := ragMessage :: base.messages
      systemPrompt := base.systemPrompt
      totalTokens := base.totalTokens + estimateTokens ragMessage.content
      truncated := base.truncated }

/-- A task row as read back from the `tasks` table (the mapping in
`TaskWorkflow.handleReminderWorkflow`'s verify step and in
`PersonalAssistant.mapDbTaskToTask`): `completed` is
`Boolean(result.completed)`, `priority` falls back to `"medium"` when
falsy. -/
structure Task where
  id : String
  userId : String
  title : String
  description : Option String
  dueDate : Option Int
  completed : Bool
  priority : String
  createdAt : Int
  completedAt : Option Int := none
  deriving DecidableEq, Repr

/-- Task snapshot carried by workflow params (`taskDetails` in
`TaskWorkflowParams`). -/
structure TaskDetails where
  title : String
  description : Option String
  priority : String
  deriving DecidableEq, Repr

/-- Parameters of a workflow run (`TaskWorkflowParams` in
`src/types/env.d.ts`). -/
structure TaskWorkflowParams where
  userId : String
  taskId : String
  action : String
  dueDate : Option Int
  taskDetails : Option TaskDetails
  deriving DecidableEq, Repr

/-- Result record returned by a completed reminder run (`ReminderResult`). -/
structure ReminderResult where
  success : Bool
  message : String
  reminderSent : Option Bool := none
  scheduledFor : Option Int := none
  taskId : Option String := none
  deriving DecidableEq, Repr

/-- A failure of a named workflow step.  `retryable` records how the engine
treats the thrown error: the Cloudflare Workflows contract — restated by the
source's own header comment "Each step is retried automatically on failure"
— retries a step whose callback throws a plain `Error`; only a
`NonRetryableError` fails the step without retry, and `TaskWorkflow` only
ever throws plain `Error`s. -/
structure StepFailure where
  step : String
  message : String
  retryable : Bool
  deriving DecidableEq, Repr

/-- Outcome of a reminder run: a returned result or a step failure. -/
inductive RunOutcome where
  | ok (result : ReminderResult)
  | failed (failure : StepFailure)
  deriving DecidableEq, Repr

/-- The external state a reminder run observes: the verify-time row for
`(taskId, userId)`, the clock at the calculate step, and the recheck-time
`completed` column (`none` when the row is gone). -/
structure ReminderEnv where
  verifyRow : Option Task
  nowAtCompute : Int
  recheckCompleted : Option Bool
  deriving DecidableEq, Repr

/-- Observable trace of one reminder run: the outcome plus which effects
happened — the calculate step's results when it completed (`deadline`,
`sentNow`), whether `step.sleep` was invoked, and whether the send step
inserted a reminder entry into the `conversations` table. -/
structure ReminderTrace where
  outcome : RunOutcome
  deadline : Option Int
  sentNow : Option Bool
  slept : Bool
  reminderLogged : Bool
  deriving DecidableEq, Repr

/-- Shallow embedding of `TaskWorkflow.handleReminderWorkflow`
(`src/workflows/TaskWorkflow.ts`): verify the task row (throwing a plain
`Error "Task not found"` when absent); return early when the task is already
completed; resolve the due date as `params.dueDate || task.dueDate` (JS `||`,
so 0 is falsy) and throw `"No due date set for task"` when unresolvable;
compute `reminderTimestamp = dueDate - 24*60*60` and
`shouldSendNow = reminderTimestamp <= now`; sleep when
`!shouldSendNow && timeUntilReminder > 0`; recheck the live `completed`
column and return `reminderSent = false` when the task is completed or gone;
otherwise insert the reminder entry and return `reminderSent = true`. -/
def handleReminderWorkflow (params : TaskWorkflowParams) (env : ReminderEnv) :
    ReminderTrace :=
  match env.verifyRow with
  | none =>
    { outcome := RunOutcome.failed
        { step := "verify-task", message := "Task not found", retryable := true }
      deadline := none, sentNow := none, slept := false, reminderLogged := false }
  | some task =>
    if task.completed then
      { outcome := RunOutcome.ok
          { success := true, message := "Task already completed, reminder skipped",
            reminderSent := some false, taskId := some params.taskId }
        deadline := none, sentNow := none, slept := false, reminderLogged := false }
    else
      match (jsTruthyInt params.dueDate).orElse (fun _ => jsTruthyInt task.dueDate) with
      | none =>
        { outcome := RunOutcome.failed
            { step := "calculate-reminder-time", message := "No due date set for task",
              retryable := true }
          deadline := none, sentNow := none, slept := false, reminderLogged := false }
      | some dueDate =>
        let reminderTimestamp := dueDate - (24 * 60 * 60)
        let shouldSendNow := decide (reminderTimestamp ≤ env.nowAtCompute)
        let timeUntilReminder := max 0 (reminderTimestamp - env.nowAtCompute)
        let slept := !shouldSendNow && decide (0 < timeUntilReminder)
        let stillIncomplete :=
          match env.recheckCompleted with
          | none => false
          | some c => !c
        if stillIncomplete then
          { outcome := RunOutcome.ok
              { success := true, message := "Reminder sent for task: " ++ task.title,
                reminderSent := some true, scheduledFor := some reminderTimestamp,
                taskId := some params.taskId }
            deadline := some reminderTimestamp, sentNow := some shouldSendNow,
            slept := slept, reminderLogged := true }
        else
          { outcome := RunOutcome.ok
              { success := true, message := "Task completed or deleted before reminder time",
                reminderSent := some false, taskId := some params.taskId }
            deadline := some reminderTimestamp, sentNow := some shouldSendNow,
            slept := slept, reminderLogged := false }

/-- Whether a trace ended in a step failure. -/
def runFailed (t : ReminderTrace) : Bool :=
  match t.outcome with
  | RunOutcome.failed _ => true
  | RunOutcome.ok _ => false

/-- Whether a trace ended in a step failure that the engine will not retry. -/
def failedWithoutRetry (t : ReminderTrace) : Bool :=
  match t.outcome with
  | RunOutcome.failed f => !f.retryable
  | RunOutcome.ok _ => false

/-- Per-connection session (`WebSocketSession` in `PersonalAssistant`). -/
structure WSSession where
  userId : String
  connectedAt : Int
  deriving DecidableEq, Repr

/-- Durably persisted actor state blob (`AgentState` in
`src/types/env.d.ts`). -/
structure AgentState where
  userId : String
  conversationHistory : List Message
  activeWebSockets : Nat
  lastActivity : Int
  deriving DecidableEq, Repr

/-- Session metadata serialized onto a WebSocket handle
(`serializeAttachment` payload); both fields optional so that partially
deserialized or falsy values can be represented. -/
structure Attachment where
  userId : Option String
  connectedAt : Option Int
  deriving DecidableEq, Repr

/-- In-memory view of a `PersonalAssistant` actor: the state blob, the
sessions map (WebSocket handles identified by `Nat` keys) and the `userId`
field. -/
structure Actor where
  state : AgentState
  sessions : List (Nat × WSSession)
  userIdField : String
  deriving DecidableEq, Repr

/-- `Map.get` on the sessions map. -/
def lookupSession (l : List (Nat × WSSession)) (k : Nat) : Option WSSession :=
  match l.find? (fun p => p.1 == k) with
  | some p => some p.2
  | none => none

/-- `Map.set` on the sessions map: replaces the entry with the same key or
appends a new one. -/
def setSession (l : List (Nat × WSSession)) (k : Nat) (v : WSSession) :
    List (Nat × WSSession) :=
  if l.any (fun p => p.1 == k) then
    l.map (fun p => if p.1 == k then (k, v) else p)
  else
    l ++ [(k, v)]

/-- `Map.delete` on the sessions map. -/
def delSession (l : List (Nat × WSSession)) (k : Nat) : List (Nat × WSSession) :=
  l.filter (fun p => !(p.1 == k))

/-- Response of the WebSocket upgrade handler. -/
inductive UpgradeResult where
  | badRequest
  | conflict
  | accepted (userId : String)
  deriving DecidableEq, Repr

/-- HTTP status of each upgrade response (400, 409, 101 as in the source). -/
def UpgradeResult.status : UpgradeResult → Nat
  | badRequest => 400
  | conflict => 409
  | accepted _ => 101

/-- Shallow embedding of `PersonalAssistant.handleWebSocketUpgrade`: reject a
missing/empty `userId` query parameter with 400; reject a claimed id that
differs from an established `state.userId` with 409 before any socket is
accepted; otherwise accept the socket under the canonical id
(`state.userId || userId`), record the session, set `state.userId` and
`state.activeWebSockets = sessions.size`. -/
def handleWebSocketUpgrade (a : Actor) (userIdParam : Option String) (wsId : Nat)
    (now : Int) : Actor × UpgradeResult :=
  match jsTruthyStr userIdParam with
  | none => (a, UpgradeResult.badRequest)
  | some userId =>
    if a.state.userId ≠ "" ∧ a.state.userId ≠ userId then
      (a, UpgradeResult.conflict)
    else
      let canonical := if a.state.userId ≠ "" then a.state.userId else userId
      let sessions := setSession a.sessions wsId { userId := canonical, connectedAt := now }
      ({ state := { a.state with userId := canonical, activeWebSockets := sessions.length }
         sessions := sessions
         userIdField := canonical }, UpgradeResult.accepted canonical)

/-- Outcome of the in-handler session recovery. -/
inductive RecoverResult where
  | alreadyKnown
  | recovered (userId : String)
  | sessionLost
  deriving DecidableEq, Repr

/-- Shallow embedding of the session-recovery prologue of
`PersonalAssistant.webSocketMessage`: when the socket is not in the sessions
map, derive an identity from `tags[0]` overridden by a truthy
`attachment.userId` (`attachment.userId || userId`); with a truthy identity
the session is re-created and `state.activeWebSockets = sessions.size`;
otherwise the handler answers "Session lost" and changes nothing. -/
def recoverSession (a : Actor) (wsId : Nat) (tags : List String)
    (att : Option Attachment) (now : Int) : Actor × RecoverResult :=
  match lookupSession a.sessions wsId with
  | some _ => (a, RecoverResult.alreadyKnown)
  | none =>
    let fromTag : Option String := tags.head?
    let claimed : Option String :=
      match att with
      | some at0 => (jsTruthyStr at0.userId).orElse (fun _ => fromTag)
      | none => fromTag
    let connectedAt : Int :=
      match att with
      | some at0 =>
        match jsTruthyInt at0.connectedAt with
        | some c => c
        | none => now
      | none => now
    match jsTruthyStr claimed with
    | some u =>
      let sessions := setSession a.sessions wsId { userId := u, connectedAt := connectedAt }
      ({ a with
          sessions := sessions
          state := { a.state with activeWebSockets := sessions.length } },
       RecoverResult.recovered u)
    | none => (a, RecoverResult.sessionLost)

/-- Shallow embedding of `PersonalAssistant.webSocketClose`: drop the
session if present and re-derive `state.activeWebSockets`. -/
def webSocketClose (a : Actor) (wsId : Nat) : Actor :=
  match lookupSession a.sessions wsId with
  | some _ =>
    let sessions := delSession a.sessions wsId
    { a with
      sessions := sessions
      state := { a.state with activeWebSockets := sessions.length } }
  | none => a

/-- Shallow embedding of `PersonalAssistant.webSocketError`: same registry
effect as the close handler (without the state save). -/
def webSocketErrorHandler (a : Actor) (wsId : Nat) : Actor :=
  match lookupSession a.sessions wsId with
  | some _ =>
    let sessions := delSession a.sessions wsId
    { a with
      sessions := sessions
      state := { a.state with activeWebSockets := sessions.length } }
  | none => a

/-- A live WebSocket handle as reported by `ctx.getWebSockets()` after a
restart: an identifier, the tag list given at accept time, and the surviving
serialized attachment. -/
structure WSHandle where
  id : Nat
  tags : List String
  att : Option Attachment
  deriving DecidableEq, Repr

/-- Shallow embedding of `PersonalAssistant.rebuildSessions`: clear the map,
re-derive each live handle's session from `tags[0] || this.userId` overridden
by a truthy `attachment.userId`, and set
`state.activeWebSockets = sessions.size`. -/
def rebuildSessions (a : Actor) (handles : List WSHandle) (now : Int) : Actor :=
  let sessions := handles.foldl (fun acc h =>
    let fromTag : String :=
      match jsTruthyStr h.tags.head? with
      | some t => t
      | none => a.userIdField
    let derived : String :=
      match h.att with
      | some at0 =>
        match jsTruthyStr at0.userId with
        | some v => v
        | none => fromTag
      | none => fromTag
    let connectedAt : Int :=
      match h.att with
      | some at0 =>
        match jsTruthyInt at0.connectedAt with
        | some c => c
        | none => now
      | none => now
    setSession acc h.id { userId := derived, connectedAt := connectedAt }) []
  { a with
    sessions := sessions
    state := { a.state with activeWebSockets := sessions.length } }

/-- The connection-registry invariant of claim C10: the persisted counter
matches the in-memory sessions map. -/
def connInv (a : Actor) : Prop :=
  a.state.activeWebSockets = a.sessions.length

/-- Payload of a `create_task` message. -/
structure CreateTaskData where
  title : String
  description : Option String
  dueDate : Option Int
  priority : Option String
  deriving DecidableEq, Repr

/-- Message sent back over the socket by `handleCreateTask`. -/
inductive CreateTaskResponse where
  | taskCreated (task : Task)
  | errorResponse (message : String)
  deriving DecidableEq, Repr

/-- Observable trace of one `handleCreateTask` call. -/
structure CreateTaskTrace where
  taskInserted : Bool
  enqueueAttempted : Bool
  enqueued : Bool
  enqueuedParams : Option TaskWorkflowParams
  enqueueErrorLogged : Bool
  response : CreateTaskResponse
  deriving DecidableEq, Repr

/-- Shallow embedding of `PersonalAssistant.handleCreateTask`: insert the
task (priority defaulting to `"medium"`); when the due date is truthy and
`dueDate - 24*60*60 > now` enqueue a reminder workflow run carrying the task
snapshot, catching and logging any enqueue failure without failing the call;
finally send `task_created`.  `createFails` / `enqueueFails` model the two
fallible external calls (the D1 insert and `TASK_WORKFLOW.create`). -/
def handleCreateTask (userId : String) (data : CreateTaskData) (taskId : String)
    (now : Int) (createFails : Bool) (enqueueFails : Bool) : CreateTaskTrace :=
  if createFails then
    { taskInserted := false, enqueueAttempted := false, enqueued := false,
      enqueuedParams := none, enqueueErrorLogged := false,
      response := CreateTaskResponse.errorResponse "Failed to create task" }
  else
    let task : Task :=
      { id := taskId, userId := userId, title := data.title,
        description := data.description, dueDate := data.dueDate,
        completed := false, priority := data.priority.getD "medium",
        createdAt := now }
    match jsTruthyInt task.dueDate with
    | none =>
      { taskInserted := true, enqueueAttempted := false, enqueued := false,
        enqueuedParams := none, enqueueErrorLogged := false,
        response := CreateTaskResponse.taskCreated task }
    | some due =>
      let reminderTime := due - (24 * 60 * 60)
      if now < reminderTime then
        if enqueueFails then
          { taskInserted := true, enqueueAttempted := true, enqueued := false,
            enqueuedParams := none, enqueueErrorLogged := true,
            response := CreateTaskResponse.taskCreated task }
        else
          { taskInserted := true, enqueueAttempted := true, enqueued := true,
            enqueuedParams := some
              { userId := userId, taskId := task.id, action := "reminder",
                dueDate := task.dueDate,
                taskDetails := some
                  { title := task.title, description := task.description,
                    priority := task.priority } },
            enqueueErrorLogged := false,
            response := CreateTaskResponse.taskCreated task }
      else
        { taskInserted := true, enqueueAttempted := false, enqueued := false,
          enqueuedParams := none, enqueueErrorLogged := false,
          response := CreateTaskResponse.taskCreated task }

/-! Concrete inputs used by counterexamples and witnesses. -/

/-- Concrete one-character message used to refute claim C1 as stated. -/
def c1msgA : Message :=
  { id := "1", role := Role.user, content := "a", timestamp := 1 }

/-- Second concrete one-character message for the C1 counterexample. -/
def c1msgB : Message :=
  { id := "2", role := Role.user, content := "b", timestamp := 2 }

/-- Options with a token budget of 1 for the C1 counterexample. -/
def c1opts : MemoryOptions :=
  { maxTokens := some 1, maxMessages := none, systemPrompt := none }

/-- Message with four characters used to refute the totalTokens clause of
claim C7 as stated. -/
def c7msg : Message :=
  { id := "1", role := Role.user, content := "abcd", timestamp := 0 }

/-- Options carrying a four-character system prompt for the C7
counterexample. -/
def c7opts : MemoryOptions :=
  { maxTokens := none, maxMessages := none, systemPrompt := some "abcd" }

/-- Concrete reminder params for the C2 counterexample and witness. -/
def c2params : TaskWorkflowParams :=
  { userId := "user-1", taskId := "task-1", action := "reminder",
    dueDate := some 1000000, taskDetails := none }

/-- Environment with no task row at the Verify step. -/
def c2env : ReminderEnv :=
  { verifyRow := none, nowAtCompute := 500000, recheckCompleted := none }

/-- Concrete incomplete task with a due date, for the C3 witness. -/
def c3task : Task :=
  { id := "task-1", userId := "user-1", title := "Write report",
    description := none, dueDate := some 1000000, completed := false,
    priority := "medium", createdAt := 1 }

/-- Concrete reminder params matching `c3task`. -/
def c3params : TaskWorkflowParams :=
  { userId := "user-1", taskId := "task-1", action := "reminder",
    dueDate := some 1000000, taskDetails := none }

/-- Environment where the Recheck step finds the task completed. -/
def c3env : ReminderEnv :=
  { verifyRow := some c3task, nowAtCompute := 900000, recheckCompleted := some true }

/-- Concrete incomplete task without any due date, for the C4
counterexample. -/
def c4task : Task :=
  { id := "task-2", userId := "user-1", title := "No due date task",
    description := none, dueDate := none, completed := false,
    priority := "low", createdAt := 1 }

/-- Reminder params without a due date, matching `c4task`. -/
def c4params : TaskWorkflowParams :=
  { userId := "user-1", taskId := "task-2", action := "reminder",
    dueDate := none, taskDetails := none }

/-- Environment whose verify row is `c4task` (no resolvable due date). -/
def c4env : ReminderEnv :=
  { verifyRow := some c4task, nowAtCompute := 100, recheckCompleted := some false }

/-- Concrete incomplete task whose reminder instant (dueDate − 86400 = 50)
is already past, for the C4 witness. -/
def c4wtask : Task :=
  { id := "task-3", userId := "user-1", title := "Due soon",
    description := none, dueDate := some 86450, completed := false,
    priority := "high", createdAt := 1 }

/-- Reminder params matching `c4wtask` (due date passed in params). -/
def c4wparams : TaskWorkflowParams :=
  { userId := "user-1", taskId := "task-3", action := "reminder",
    dueDate := some 86450, taskDetails := none }

/-- Environment for the C4 witness: now = 100, task still incomplete. -/
def c4wenv : ReminderEnv :=
  { verifyRow := some c4wtask, nowAtCompute := 100, recheckCompleted := some false }

/-- Concrete task already completed at the Verify step, for the C9
witness. -/
def c9task : Task :=
  { id := "task-4", userId := "user-1", title := "Already done",
    description := none, dueDate := some 1000000, completed := true,
    priority := "medium", createdAt := 1 }

/-- Reminder params matching `c9task`. -/
def c9params : TaskWorkflowParams :=
  { userId := "user-1", taskId := "task-4", action := "reminder",
    dueDate := some 1000000, taskDetails := none }

/-- Environment whose verify row is the already-completed `c9task`. -/
def c9env : ReminderEnv :=
  { verifyRow := some c9task, nowAtCompute := 100, recheckCompleted := some false }

/-- Actor with no established userId, for the C5 witness. -/
def actorEmpty : Actor :=
  { state := { userId := "", conversationHistory := [], activeWebSockets := 0,
               lastActivity := 0 },
    sessions := [], userIdField := "" }

/-- Actor whose canonical userId is `"alice"` with one live session, for the
C5 and C10 witnesses. -/
def actorAlice : Actor :=
  { state := { userId := "alice", conversationHistory := [], activeWebSockets := 1,
               lastActivity := 5 },
    sessions := [(1, { userId := "alice", connectedAt := 5 })],
    userIdField := "alice" }

/-- `create_task` payload with a due date far in the future, for the C6
witness. -/
def c6data : CreateTaskData :=
  { title := "Plan trip", description := some "book flights",
    dueDate := some 200000, priority := none }

/-- `create_task` payload whose due date is less than 24 hours away. -/
def c6dataSoon : CreateTaskData :=
  { title := "Buy milk", description := none,
    dueDate := some 1000, priority := none }

/-! Theorems. -/

/-- If the running total plus all remaining costs stays within the budget,
the token walk keeps the whole list. -/
theorem takeNewest_of_sum_le (maxT : Nat) (l : List Message) :
    ∀ current : Nat,
      current + (l.map (fun m => estimateTokens m.content)).sum ≤ maxT →
      takeNewest maxT current l = l := by
  induction l with
  | nil => intro current _; rfl
  | cons m rest ih =>
    intro current h
    simp only [List.map_cons, List.sum_cons] at h
    have hcost : ¬ maxT < current + estimateTokens m.content := by omega
    simp only [takeNewest, if_neg hcost]
    rw [ih (current + estimateTokens m.content) (by omega)]

/-- The token estimator is exactly the ceiling of length over four. -/
theorem estimateTokens_eq_ceil (t : String) :
    (estimateTokens t : ℤ) = ⌈(t.length : ℚ) / 4⌉ := by
  unfold estimateTokens
  generalize t.length = l
  obtain ⟨k, hk⟩ : ∃ k, (l + 3) / 4 = k := ⟨_, rfl⟩
  have h1 : l ≤ 4 * k := by omega
  have h2 : 4 * k ≤ l + 3 := by omega
  rw [hk]
  symm
  rw [Int.ceil_eq_iff]
  have h1Q : (l : ℚ) ≤ 4 * (k : ℚ) := by exact_mod_cast h1
  have h2Q : (4 : ℚ) * (k : ℚ) ≤ (l : ℚ) + 3 := by exact_mod_cast h2
  have hkk : (((k : ℤ)) : ℚ) = (k : ℚ) := by push_cast; ring
  constructor
  · rw [lt_div_iff₀ (by norm_num : (0 : ℚ) < 4), hkk]
    linarith
  · rw [div_le_iff₀ (by norm_num : (0 : ℚ) < 4), hkk]
    linarith

/-- Claim C1 (as stated) is false: a two-message history of one character
each has total character count 2 ≤ 4·maxTokens = 4 and count 2 ≤ maxMessages
= 50, yet with maxTokens = 1 each message costs ⌈1/4⌉ = 1 token, the walk
stops after one message, and the context is truncated. -/
theorem claim1_counterexample :
    (([c1msgA, c1msgB].map (fun m => m.content.length)).sum ≤
        4 * c1opts.maxTokens.getD 4000) ∧
    [c1msgA, c1msgB].length ≤ c1opts.maxMessages.getD 50 ∧
    (buildContext [c1msgA, c1msgB] c1opts).truncated = true := by
  refine ⟨by decide, by decide, ?_⟩
  rfl

/-- Claim C1 (amended): if the message count is within `maxMessages` and the
system prompt cost plus the sum of the per-message token estimates is within
`maxTokens`, then the built context is not truncated and its messages are
exactly the input messages in their original order.  (The original premise
`totalChars ≤ 4*maxTokens` is not sufficient: per-message estimates are
ceilings, so many short messages can overflow the token budget, and the
system prompt also consumes budget.) -/
theorem claim1_amended (history : List Message) (options : MemoryOptions)
    (hcount : history.length ≤ options.maxMessages.getD 50)
    (htok : systemPromptTokens options +
        (history.map (fun m => estimateTokens m.content)).sum ≤
        options.maxTokens.getD 4000) :
    (buildContext history options).truncated = false ∧
    (buildContext history options).messages = history := by
  have hlast : lastN (options.maxMessages.getD 50) history = history := by
    unfold lastN
    have h0 : history.length - options.maxMessages.getD 50 = 0 := by omega
    rw [h0, List.drop_zero]
  have hkept : keptNewestFirst history options = history.reverse := by
    unfold keptNewestFirst
    rw [hlast]
    apply takeNewest_of_sum_le
    rw [List.map_reverse, List.sum_reverse]
    exact htok
  constructor
  · show (decide (options.maxMessages.getD 50 < history.length) ||
      decide ((keptNewestFirst history options).length <
        (lastN (options.maxMessages.getD 50) history).length)) = false
    rw [hkept, hlast, List.length_reverse]
    simp
    omega
  · show (keptNewestFirst history options).reverse = history
    rw [hkept, List.reverse_reverse]

/-- Closed witness for `claim1_amended` at a concrete input. -/
theorem claim1_witness :
    (buildContext [c1msgA, c1msgB] { }).truncated = false ∧
    (buildContext [c1msgA, c1msgB] { }).messages = [c1msgA, c1msgB] :=
  claim1_amended [c1msgA, c1msgB] { } (by decide) (by decide)

/-- Claim C7 (as stated) is false in its totalTokens clause: with a system
prompt present, the built context's totalTokens (here 2) also includes the
system prompt's estimate and is not the sum of the per-message estimates
(here 1). -/
theorem claim7_counterexample :
    (buildContext [c7msg] c7opts).totalTokens ≠
      (((buildContext [c7msg] c7opts).messages).map
        (fun m => estimateTokens m.content)).sum := by
  have h1 : (buildContext [c7msg] c7opts).totalTokens = 2 := rfl
  have h2 : (((buildContext [c7msg] c7opts).messages).map
      (fun m => estimateTokens m.content)).sum = 1 := rfl
  rw [h1, h2]
  omega

/-- Claim C7 (amended): the token estimator returns exactly ⌈length / 4⌉ for
every text and 0 for the empty string, and a built context's totalTokens is
the system prompt's estimate (0 when absent) plus the sum of the per-message
estimates of the kept messages. -/
theorem claim7_amended :
    (∀ t : String, (estimateTokens t : ℤ) = ⌈(t.length : ℚ) / 4⌉) ∧
    estimateTokens "" = 0 ∧
    ∀ (history : List Message) (options : MemoryOptions),
      (buildContext history options).totalTokens =
        systemPromptTokens options +
          (((buildContext history options).messages).map
            (fun m => estimateTokens m.content)).sum := by
  refine ⟨estimateTokens_eq_ceil, rfl, ?_⟩
  intro history options
  show systemPromptTokens options +
      ((keptNewestFirst history options).map (fun m => estimateTokens m.content)).sum =
    systemPromptTokens options +
      (((keptNewestFirst history options).reverse).map
        (fun m => estimateTokens m.content)).sum
  rw [List.map_reverse, List.sum_reverse]

/-- Claim C8: with an empty retrieved-snippet list, `prepareRAGContext`
returns a context identical to `buildContext` with the same options; in
particular no retrieval system message is added. -/
theorem claim8_empty_retrieval (history : List Message) (options : MemoryOptions) :
    prepareRAGContext history [] options = buildContext history options := rfl

/-- Claim C2 (as stated) is false in its no-retry clause: with no task row
for `(taskId, userId)` at the Verify step the run does fail, but the step
throws a plain `Error`, which the engine retries — the failure is not a
no-retry (fatal) one. -/
theorem claim2_counterexample :
    runFailed (handleReminderWorkflow c2params c2env) = true ∧
    failedWithoutRetry (handleReminderWorkflow c2params c2env) = false :=
  ⟨rfl, rfl⟩

/-- Claim C2 (amended): if no task exists for `(taskId, userId)` at the
Verify step, the run fails there with the plain (hence retryable) error
"Task not found" — the engine retries the Verify step rather than failing
without retry — and no sleep or reminder write happens. -/
theorem claim2_amended (params : TaskWorkflowParams) (env : ReminderEnv)
    (h : env.verifyRow = none) :
    (handleReminderWorkflow params env).outcome =
      RunOutcome.failed
        { step := "verify-task", message := "Task not found", retryable := true } ∧
    (handleReminderWorkflow params env).slept = false ∧
    (handleReminderWorkflow params env).reminderLogged = false := by
  unfold handleReminderWorkflow
  rw [h]
  exact ⟨rfl, rfl, rfl⟩

/-- Closed witness for `claim2_amended` at a concrete input. -/
theorem claim2_witness :
    (handleReminderWorkflow c2params c2env).outcome =
      RunOutcome.failed
        { step := "verify-task", message := "Task not found", retryable := true } ∧
    (handleReminderWorkflow c2params c2env).slept = false ∧
    (handleReminderWorkflow c2params c2env).reminderLogged = false :=
  claim2_amended c2params c2env rfl

/-- Claim C3: when the run reaches the Recheck step (task present and
incomplete at Verify, due date resolvable) and the recheck finds the task
completed or gone, the run returns success with `reminderSent = false` and
no reminder entry is written to the conversations log. -/
theorem claim3_recheck_no_send (params : TaskWorkflowParams) (env : ReminderEnv)
    (task : Task) (d : Int)
    (hverify : env.verifyRow = some task)
    (hnotdone : task.completed = false)
    (hdue : (jsTruthyInt params.dueDate).orElse (fun _ => jsTruthyInt task.dueDate) =
      some d)
    (hrecheck : env.recheckCompleted = none ∨ env.recheckCompleted = some true) :
    (handleReminderWorkflow params env).outcome =
      RunOutcome.ok
        { success := true, message := "Task completed or deleted before reminder time",
          reminderSent := some false, taskId := some params.taskId } ∧
    (handleReminderWorkflow params env).reminderLogged = false := by
  rcases hrecheck with h | h <;>
    simp [handleReminderWorkflow, hverify, hnotdone, hdue, h]

/-- Closed witness for `claim3_recheck_no_send` at a concrete input. -/
theorem claim3_witness :
    (handleReminderWorkflow c3params c3env).outcome =
      RunOutcome.ok
        { success := true, message := "Task completed or deleted before reminder time",
          reminderSent := some false, taskId := some c3params.taskId } ∧
    (handleReminderWorkflow c3params c3env).reminderLogged = false :=
  claim3_recheck_no_send c3params c3env c3task 1000000 rfl rfl rfl (Or.inr rfl)

/-- Claim C4 (as stated) is false in its fatality clause: with no resolvable
due date the run does fail at the calculate step, but the thrown error is a
plain `Error`, which the engine retries — not a fatal no-retry failure. -/
theorem claim4_counterexample :
    runFailed (handleReminderWorkflow c4params c4env) = true ∧
    failedWithoutRetry (handleReminderWorkflow c4params c4env) = false :=
  ⟨rfl, rfl⟩

/-- Claim C4 (amended): past Verify, if the due date resolves to `d` the
computed reminder instant is `d - 86400` seconds, `shouldSendNow` holds
exactly when that instant is at or before the current time, and no sleep
occurs when `shouldSendNow` holds; if no due date is resolvable the run
fails at the calculate step with the plain (hence retryable) error
"No due date set for task" rather than failing without retry. -/
theorem claim4_amended (params : TaskWorkflowParams) (env : ReminderEnv) (task : Task)
    (hverify : env.verifyRow = some task)
    (hnotdone : task.completed = false) :
    (∀ d : Int,
      (jsTruthyInt params.dueDate).orElse (fun _ => jsTruthyInt task.dueDate) = some d →
      (handleReminderWorkflow params env).deadline = some (d - 86400) ∧
      (handleReminderWorkflow params env).sentNow =
        some (decide (d - 86400 ≤ env.nowAtCompute)) ∧
      (d - 86400 ≤ env.nowAtCompute → (handleReminderWorkflow params env).slept = false)) ∧
    ((jsTruthyInt params.dueDate).orElse (fun _ => jsTruthyInt task.dueDate) = none →
      (handleReminderWorkflow params env).outcome =
        RunOutcome.failed
          { step := "calculate-reminder-time", message := "No due date set for task",
            retryable := true }) := by
  constructor
  · intro d hdue
    refine ⟨?_, ?_, ?_⟩
    · rcases hrc : env.recheckCompleted with _ | b
      · simp [handleReminderWorkflow, hverify, hnotdone, hdue, hrc]
      · cases b <;> simp [handleReminderWorkflow, hverify, hnotdone, hdue, hrc]
    · rcases hrc : env.recheckCompleted with _ | b
      · simp [handleReminderWorkflow, hverify, hnotdone, hdue, hrc]
      · cases b <;> simp [handleReminderWorkflow, hverify, hnotdone, hdue, hrc]
    · intro hle
      rcases hrc : env.recheckCompleted with _ | b
      · simp [handleReminderWorkflow, hverify, hnotdone, hdue, hrc]
        omega
      · cases b <;> simp [handleReminderWorkflow, hverify, hnotdone, hdue, hrc] <;> omega
  · intro hdue
    simp [handleReminderWorkflow, hverify, hnotdone, hdue]

/-- Closed witness for `claim4_amended` at a concrete input: dueDate 86450
gives reminder instant 50, already past at now = 100, so `sentNow` is true
and no sleep happens. -/
theorem claim4_witness :
    (handleReminderWorkflow c4wparams c4wenv).deadline = some 50 ∧
    (handleReminderWorkflow c4wparams c4wenv).sentNow = some true ∧
    (handleReminderWorkflow c4wparams c4wenv).slept = false := by
  obtain ⟨hall, -⟩ := claim4_amended c4wparams c4wenv c4wtask rfl rfl
  obtain ⟨h1, h2, h3⟩ := hall 86450 rfl
  refine ⟨h1.trans (by norm_num), h2.trans (by decide), h3 (by decide)⟩

/-- Claim C9: when the Verify step finds the task but it is already
completed, the run returns success with `reminderSent = false` immediately —
no reminder instant is computed, no sleep happens, and no reminder entry is
written. -/
theorem claim9_completed_at_verify (params : TaskWorkflowParams) (env : ReminderEnv)
    (task : Task)
    (hverify : env.verifyRow = some task)
    (hdone : task.completed = true) :
    (handleReminderWorkflow params env).outcome =
      RunOutcome.ok
        { success := true, message := "Task already completed, reminder skipped",
          reminderSent := some false, taskId := some params.taskId } ∧
    (handleReminderWorkflow params env).deadline = none ∧
    (handleReminderWorkflow params env).sentNow = none ∧
    (handleReminderWorkflow params env).slept = false ∧
    (handleReminderWorkflow params env).reminderLogged = false := by
  simp [handleReminderWorkflow, hverify, hdone]

/-- Closed witness for `claim9_completed_at_verify` at a concrete input. -/
theorem claim9_witness :
    (handleReminderWorkflow c9params c9env).outcome =
      RunOutcome.ok
        { success := true, message := "Task already completed, reminder skipped",
          reminderSent := some false, taskId := some c9params.taskId } ∧
    (handleReminderWorkflow c9params c9env).deadline = none ∧
    (handleReminderWorkflow c9params c9env).sentNow = none ∧
    (handleReminderWorkflow c9params c9env).slept = false ∧
    (handleReminderWorkflow c9params c9env).reminderLogged = false :=
  claim9_completed_at_verify c9params c9env c9task rfl rfl

/-- Claim C5: with no established userId the first accepted connection's
claimed id becomes the canonical `state.userId`; once established, any
connection attempt claiming a different (non-empty) id is answered with the
conflict response (HTTP 409) and the actor is unchanged — no WebSocket is
accepted. -/
theorem claim5_userid_conflict :
    (∀ (a : Actor) (u : String) (wsId : Nat) (now : Int),
      a.state.userId = "" → u ≠ "" →
      (handleWebSocketUpgrade a (some u) wsId now).2 = UpgradeResult.accepted u ∧
      ((handleWebSocketUpgrade a (some u) wsId now).1).state.userId = u) ∧
    (∀ (a : Actor) (u : String) (wsId : Nat) (now : Int),
      a.state.userId ≠ "" → u ≠ a.state.userId → u ≠ "" →
      handleWebSocketUpgrade a (some u) wsId now = (a, UpgradeResult.conflict) ∧
      UpgradeResult.conflict.status = 409) := by
  constructor
  · intro a u wsId now hempty hu
    simp [handleWebSocketUpgrade, jsTruthyStr, hu, hempty]
  · intro a u wsId now hestab hne hu
    have hne2 : a.state.userId ≠ u := fun h => hne h.symm
    simp [handleWebSocketUpgrade, jsTruthyStr, UpgradeResult.status, hu, hestab, hne2]

/-- Closed witness for `claim5_userid_conflict` at concrete inputs. -/
theorem claim5_witness :
    (handleWebSocketUpgrade actorEmpty (some "alice") 1 10).2 =
      UpgradeResult.accepted "alice" ∧
    handleWebSocketUpgrade actorAlice (some "bob") 2 20 =
      (actorAlice, UpgradeResult.conflict) := by
  refine ⟨(claim5_userid_conflict.1 actorEmpty "alice" 1 10 rfl (by decide)).1, ?_⟩
  exact (claim5_userid_conflict.2 actorAlice "bob" 2 20 (by decide) (by decide)
    (by decide)).1

/-- Claim C6: with the D1 insert succeeding, a due date strictly more than
24 hours in the future causes a reminder workflow run to be enqueued with
the task snapshot; a due date 24 hours or less away causes no enqueue
attempt; and an enqueue failure is logged while the call still succeeds and
the `task_created` response is still sent. -/
theorem claim6_reminder_enqueue (userId : String) (data : CreateTaskData)
    (taskId : String) (now : Int) (d : Int)
    (hdue : data.dueDate = some d) (hnow : 0 ≤ now) :
    (now + 86400 < d →
      (handleCreateTask userId data taskId now false false).enqueued = true ∧
      (handleCreateTask userId data taskId now false false).enqueuedParams =
        some { userId := userId, taskId := taskId, action := "reminder",
               dueDate := some d,
               taskDetails := some
                 { title := data.title, description := data.description,
                   priority := data.priority.getD "medium" } }) ∧
    (d ≤ now + 86400 →
      ∀ enqueueFails : Bool,
        (handleCreateTask userId data taskId now false enqueueFails).enqueueAttempted =
          false) ∧
    (now + 86400 < d →
      (handleCreateTask userId data taskId now false true).enqueueErrorLogged = true ∧
      (handleCreateTask userId data taskId now false true).taskInserted = true ∧
      (handleCreateTask userId data taskId now false true).response =
        CreateTaskResponse.taskCreated
          { id := taskId, userId := userId, title := data.title,
            description := data.description, dueDate := some d,
            completed := false, priority := data.priority.getD "medium",
            createdAt := now }) := by
  have hne : d ≠ 0 → jsTruthyInt (some d) = some d := by
    intro h0; simp [jsTruthyInt, h0]
  refine ⟨?_, ?_, ?_⟩
  · intro hfar
    have h0 : d ≠ 0 := by omega
    unfold handleCreateTask
    simp only [hdue, if_neg (Bool.false_ne_true), hne h0]
    rw [if_pos (by omega : now < d - (24 * 60 * 60))]
    simp [hdue]
  · intro hnear enqueueFails
    by_cases h0 : d = 0
    · unfold handleCreateTask
      simp [hdue, h0, jsTruthyInt]
    · unfold handleCreateTask
      simp only [hdue, if_neg (Bool.false_ne_true), hne h0]
      rw [if_neg (by omega : ¬ now < d - (24 * 60 * 60))]
  · intro hfar
    have h0 : d ≠ 0 := by omega
    unfold handleCreateTask
    simp only [hdue, if_neg (Bool.false_ne_true), hne h0]
    rw [if_pos (by omega : now < d - (24 * 60 * 60))]
    exact ⟨rfl, rfl, rfl⟩

/-- Closed witness for `claim6_reminder_enqueue` at concrete inputs: a due
date 200000 seconds out is enqueued at now = 0, a due date 1000 seconds out
is not, and a failing enqueue is logged while the task is still created. -/
theorem claim6_witness :
    (handleCreateTask "u" c6data "T" 0 false false).enqueued = true ∧
    (handleCreateTask "u" c6dataSoon "T" 0 false false).enqueueAttempted = false ∧
    (handleCreateTask "u" c6data "T" 0 false true).enqueueErrorLogged = true ∧
    (handleCreateTask "u" c6data "T" 0 false true).taskInserted = true := by
  refine ⟨((claim6_reminder_enqueue "u" c6data "T" 0 200000 rfl (by decide)).1
    (by decide)).1, ?_, ?_, ?_⟩
  · exact (claim6_reminder_enqueue "u" c6dataSoon "T" 0 1000 rfl (by decide)).2.1
      (by decide) false
  · exact ((claim6_reminder_enqueue "u" c6data "T" 0 200000 rfl (by decide)).2.2
      (by decide)).1
  · exact ((claim6_reminder_enqueue "u" c6data "T" 0 200000 rfl (by decide)).2.2
      (by decide)).2.1

/-- Claim C10: every connection-registry operation — the WebSocket upgrade,
the in-handler session recovery, the close and error handlers, and
`rebuildSessions` — keeps `state.activeWebSockets` equal to the number of
entries of the in-memory sessions map (the rebuild establishes it
unconditionally). -/
theorem claim10_active_count_inv :
    (∀ (a : Actor) (p : Option String) (w : Nat) (n : Int),
      connInv a → connInv (handleWebSocketUpgrade a p w n).1) ∧
    (∀ (a : Actor) (w : Nat) (tags : List String) (att : Option Attachment) (n : Int),
      connInv a → connInv (recoverSession a w tags att n).1) ∧
    (∀ (a : Actor) (w : Nat), connInv a → connInv (webSocketClose a w)) ∧
    (∀ (a : Actor) (w : Nat), connInv a → connInv (webSocketErrorHandler a w)) ∧
    (∀ (a : Actor) (hs : List WSHandle) (n : Int), connInv (rebuildSessions a hs n)) := by
  refine ⟨?_, ?_, ?_, ?_, ?_⟩
  · intro a p w n h
    unfold handleWebSocketUpgrade
    split
    · exact h
    · split
      · exact h
      · exact rfl
  · intro a w tags att n h
    unfold recoverSession
    dsimp only
    repeat' split
    all_goals first | exact h | exact rfl
  · intro a w h
    unfold webSocketClose
    cases lookupSession a.sessions w with
    | some s => rfl
    | none => exact h
  · intro a w h
    unfold webSocketErrorHandler
    cases lookupSession a.sessions w with
    | some s => rfl
    | none => exact h
  · intro a hs n
    rfl

/-- Closed witness for `claim10_active_count_inv` at concrete inputs. -/
theorem claim10_witness :
    connInv (handleWebSocketUpgrade actorAlice (some "alice") 2 30).1 ∧
    connInv (webSocketClose actorAlice 1) ∧
    connInv (rebuildSessions actorAlice [] 0) := by
  refine ⟨claim10_active_count_inv.1 actorAlice (some "alice") 2 30 rfl, ?_, ?_⟩
  · exact claim10_active_count_inv.2.2.1 actorAlice 1 rfl
  · exact claim10_active_count_inv.2.2.2.2 actorAlice [] 0

end AgentCloud
